import Mathlib

/-!
Verification development for the CopperHead snake-tournament server
(`src/main.py`).  The definitions below are a shallow embedding of the
server's game engine (`Snake`, `Game.update`), fruit lifecycle
(`choose_fruit_type`, `spawn_food_if_needed`), room forfeit handling
(`GameRoom.disconnect_player`), bracket advancement
(`Competition._advance_round`) and matchmaking
(`RoomManager.find_or_create_room`).

Modelling conventions:
* grid cells are `Int × Int` (wall checks compare against the grid bounds);
* the two snakes of a game are the fields `snake1`/`snake2`, in the same
  order in which the Python code iterates over `self.snakes.values()`;
* the ten fruit-type identifiers are modelled as the enumeration
  `FruitType` (the Python code uses the corresponding string literals);
* `random.random()` / `random.choices` / `random.choice` /
  `random.shuffle` draws are modelled as explicit oracle arguments
  (an index into the weighted table, an index into the free-cell list,
  a per-player tiebreak number, a permutation function);
* Python `dict`s keyed by room id are modelled as association lists in
  insertion order, with assignment to an existing key preserving the
  key's position, exactly like CPython dictionaries.
-/

namespace Copperhead

/-- The four movement directions (`"up" | "down" | "left" | "right"`). -/
inductive Dir where
  | up
  | down
  | left
  | right
deriving DecidableEq, Repr

/-- The `opposites` table used throughout `main.py`:
`{"up": "down", "down": "up", "left": "right", "right": "left"}`. -/
def Dir.opposite : Dir → Dir
  | .up => .down
  | .down => .up
  | .left => .right
  | .right => .left

/-- The `moves` table: unit vector of a direction,
`{"up": (0, -1), "down": (0, 1), "left": (-1, 0), "right": (1, 0)}`. -/
def Dir.vec : Dir → Int × Int
  | .up => (0, -1)
  | .down => (0, 1)
  | .left => (-1, 0)
  | .right => (1, 0)

/-- The `Snake` class of `main.py` (the wire-only `buff` field is omitted:
no game rule reads it). -/
structure Snake where
  playerId : Nat
  body : List (Int × Int)
  direction : Dir
  nextDirection : Dir
  inputQueue : List Dir
  alive : Bool
  changedDirectionLastMove : Bool
deriving DecidableEq, Repr

/-- `Snake.head`: the first body cell.  The Python code indexes `body[0]`
on a body that is never empty; the embedding totalises with a default. -/
def Snake.headPos (s : Snake) : Int × Int :=
  s.body.headD (0, 0)

/-- `Snake.queue_direction`: queue a direction change, rejecting a
direction that equals or is opposite to the last queued direction
(or to `next_direction` when the queue is empty); after an accepted
append, if the queue holds more than 3 entries the oldest is dropped. -/
def Snake.queueDirection (s : Snake) (d : Dir) : Snake :=
  let lastDir := s.inputQueue.getLast?.getD s.nextDirection
  if d.opposite ≠ lastDir ∧ d ≠ lastDir then
    let q := s.inputQueue ++ [d]
    { s with inputQueue := if 3 < q.length then q.tail else q }
  else
    s

/-- `Snake.process_input`: pop one queued direction; adopt it as
`next_direction` unless it is the exact reverse of the current travel
direction; record whether the committed `next_direction` differs from
the travel direction held before the commit. -/
def Snake.processInput (s : Snake) : Snake :=
  let oldDirection := s.direction
  let s' :=
    match s.inputQueue with
    | [] => s
    | newDir :: rest =>
      if newDir.opposite ≠ s.direction then
        { s with inputQueue := rest, nextDirection := newDir }
      else
        { s with inputQueue := rest }
  { s' with changedDirectionLastMove := decide (s'.nextDirection ≠ oldDirection) }

/-- `Snake.get_next_head`: peek (without consuming) at the direction the
next `move` will take and return the resulting head cell. -/
def Snake.getNextHead (s : Snake) : Int × Int :=
  let nextDir :=
    match s.inputQueue with
    | [] => s.nextDirection
    | candidate :: _ =>
      if candidate.opposite ≠ s.direction then candidate else s.nextDirection
  (s.headPos.1 + nextDir.vec.1, s.headPos.2 + nextDir.vec.2)

/-- `Snake.move(grow)`: process one input, adopt `next_direction`,
prepend the new head, and pop the tail unless growing. -/
def Snake.move (s : Snake) (grow : Bool) : Snake :=
  let s1 := s.processInput
  let s2 := { s1 with direction := s1.nextDirection }
  let newHead := (s2.headPos.1 + s2.direction.vec.1, s2.headPos.2 + s2.direction.vec.2)
  let body := newHead :: s2.body
  { s2 with body := if grow then body else body.dropLast }

/-- The grapes effect on a non-eating snake:
`if len(other.body) > 1: other.body.pop()`. -/
def Snake.shrinkTail (s : Snake) : Snake :=
  if 1 < s.body.length then { s with body := s.body.dropLast } else s

/-- The ten fruit-type identifiers of `Game.FRUIT_TYPES`. -/
inductive FruitType where
  | apple
  | orange
  | lemon
  | grapes
  | strawberry
  | banana
  | peach
  | cherry
  | watermelon
  | kiwi
deriving DecidableEq, Repr

/-- Per-type fruit configuration: `{"propensity": int, "lifetime": int}`
(`lifetime` 0 means infinite). -/
structure FruitProps where
  propensity : Nat
  lifetime : Nat
deriving DecidableEq, Repr

/-- The server configuration fields that the game engine reads. -/
structure Config where
  gridWidth : Nat
  gridHeight : Nat
  maxFruits : Nat
  fruitInterval : Nat
  fruits : List (FruitType × FruitProps)
  pointsToWin : Nat
deriving DecidableEq, Repr

/-- A food item `{"x", "y", "type", "lifetime"}`; `lifetime = none`
models Python `None` (infinite). -/
structure Food where
  x : Int
  y : Int
  ftype : FruitType
  lifetime : Option Int
deriving DecidableEq, Repr

/-- The `Game` state: the snake map `{1: snake1, 2: snake2}` (in
iteration order), the food list, `running`, `winner` and
`ticks_since_last_fruit`. -/
structure Game where
  snake1 : Snake
  snake2 : Snake
  foods : List Food
  running : Bool
  winner : Option Nat
  ticksSinceLastFruit : Nat
deriving DecidableEq, Repr

/-- `Game.get_food_at`: first food item at the given cell, if any. -/
def getFoodAt (foods : List Food) (pos : Int × Int) : Option Food :=
  foods.find? (fun f => decide ((f.x, f.y) = pos))

/-- `Game.remove_food_at`: drop every food item at the given cell. -/
def removeFoodAt (foods : List Food) (pos : Int × Int) : List Food :=
  foods.filter (fun f => !decide ((f.x, f.y) = pos))

/-- First half of the per-tick loop body of `Game.update` for snake 1:
fruit lookup at the predicted head, fruit effects, then the move. -/
def eatAndMove1 (g : Game) : Game :=
  if g.snake1.alive then
    let nh := g.snake1.getNextHead
    match getFoodAt g.foods nh with
    | none => { g with snake1 := g.snake1.move false }
    | some f =>
      let grow := f.ftype = FruitType.apple ∨ f.ftype = FruitType.grapes
      let s2 := if f.ftype = FruitType.grapes then g.snake2.shrinkTail else g.snake2
      { g with
          snake1 := g.snake1.move grow
          snake2 := s2
          foods := removeFoodAt g.foods nh }
  else
    g

/-- The same loop body for snake 2 (iterated second, so it sees the
state snake 1 left behind). -/
def eatAndMove2 (g : Game) : Game :=
  if g.snake2.alive then
    let nh := g.snake2.getNextHead
    match getFoodAt g.foods nh with
    | none => { g with snake2 := g.snake2.move false }
    | some f =>
      let grow := f.ftype = FruitType.apple ∨ f.ftype = FruitType.grapes
      let s1 := if f.ftype = FruitType.grapes then g.snake1.shrinkTail else g.snake1
      { g with
          snake2 := g.snake2.move grow
          snake1 := s1
          foods := removeFoodAt g.foods nh }
  else
    g

/-- Wall, self and cross-body collision checks for one live snake
against the other snake's body. -/
def collideSnake (cfg : Config) (s other : Snake) : Snake :=
  if s.alive then
    let hx := s.headPos.1
    let hy := s.headPos.2
    let wall : Bool :=
      decide (hx < 0) || decide ((cfg.gridWidth : Int) ≤ hx) ||
      decide (hy < 0) || decide ((cfg.gridHeight : Int) ≤ hy)
    let selfHit : Bool := decide (s.headPos ∈ s.body.tail)
    let crossHit : Bool := decide (s.headPos ∈ other.body)
    if wall || selfHit || crossHit then { s with alive := false } else s
  else
    s

/-- The collision-detection pass of `Game.update` (run after both snakes
have moved; only bodies of the other snake are read, so the sequential
Python loop equals this simultaneous form). -/
def collide (cfg : Config) (g : Game) : Game :=
  { g with
      snake1 := collideSnake cfg g.snake1 g.snake2
      snake2 := collideSnake cfg g.snake2 g.snake1 }

/-- The head-on pass of `Game.update`: both alive with equal heads kills
both; otherwise, both alive with bodies of length ≥ 2 whose heads
swapped with the other's previous head kills both. -/
def headOn (g : Game) : Game :=
  let s1 := g.snake1
  let s2 := g.snake2
  if s1.alive ∧ s2.alive ∧ s1.headPos = s2.headPos then
    { g with snake1 := { s1 with alive := false }, snake2 := { s2 with alive := false } }
  else if s1.alive ∧ s2.alive ∧ 2 ≤ s1.body.length ∧ 2 ≤ s2.body.length ∧
      s1.headPos = s2.body.getD 1 (0, 0) ∧ s2.headPos = s1.body.getD 1 (0, 0) then
    { g with snake1 := { s1 with alive := false }, snake2 := { s2 with alive := false } }
  else
    g

/-- The tiebreak applied when both snakes crash on the same tick:
longer body wins; at equal length the snake that changed direction
(and the other did not) loses; otherwise a draw (`None`). -/
def tiebreakWinner (s1 s2 : Snake) : Option Nat :=
  if s2.body.length < s1.body.length then some s1.playerId
  else if s1.body.length < s2.body.length then some s2.playerId
  else if s1.changedDirectionLastMove ∧ ¬s2.changedDirectionLastMove then some s2.playerId
  else if s2.changedDirectionLastMove ∧ ¬s1.changedDirectionLastMove then some s1.playerId
  else none

/-- Number of live snakes (`len(alive_snakes)`). -/
def aliveCount (g : Game) : Nat :=
  (if g.snake1.alive then 1 else 0) + (if g.snake2.alive then 1 else 0)

/-- The termination pass of `Game.update`: when at most one snake is
alive, stop the game and set the winner (sole survivor, or tiebreak). -/
def finalize (g : Game) : Game :=
  if aliveCount g ≤ 1 then
    { g with
        running := false
        winner :=
          if g.snake1.alive then some g.snake1.playerId
          else if g.snake2.alive then some g.snake2.playerId
          else tiebreakWinner g.snake1 g.snake2 }
  else
    g

/-- `Game.update`: one tick of the game engine (no-op unless running). -/
def Game.update (cfg : Config) (g : Game) : Game :=
  if g.running then finalize (headOn (collide cfg (eatAndMove2 (eatAndMove1 g)))) else g

/-! ## Fruit lifecycle (`Game.choose_fruit_type`, `Game.spawn_food_if_needed`) -/

/-- Propensity-weighted selection: walk the weighted table consuming the
draw `r`; with `r` uniform below the total weight this is exactly the
distribution of `random.choices(types, weights=weights, k=1)[0]`. -/
def weightedPick : List (FruitType × Nat) → Nat → Option FruitType
  | [], _ => none
  | (t, w) :: rest, r => if r < w then some t else weightedPick rest (r - w)

/-- The `(fruit_type, propensity)` pairs with positive propensity, in
configuration order. -/
def positiveFruits (cfg : Config) : List (FruitType × Nat) :=
  (cfg.fruits.filter (fun p => decide (0 < p.2.propensity))).map (fun p => (p.1, p.2.propensity))

/-- `Game.choose_fruit_type`: `None` when no type has positive
propensity, otherwise a propensity-weighted draw (`r` is the random
oracle). -/
def chooseFruitType (cfg : Config) (r : Nat) : Option FruitType :=
  let pos := positiveFruits cfg
  let total := (pos.map (fun p => p.2)).sum
  if total = 0 then none else weightedPick pos (r % total)

/-- `config.fruits[fruit_type].get("lifetime", 0)`. -/
def fruitLifetime (cfg : Config) (t : FruitType) : Nat :=
  ((cfg.fruits.find? (fun p => decide (p.1 = t))).map (fun p => p.2.lifetime)).getD 0

/-- Cells covered by a snake body or an existing food item. -/
def occupiedCells (g : Game) : List (Int × Int) :=
  g.snake1.body ++ g.snake2.body ++ g.foods.map (fun f => (f.x, f.y))

/-- The grid cells not occupied by any snake body or food, i.e. the
Python list comprehension `available`. -/
def availableCells (cfg : Config) (g : Game) : List (Int × Int) :=
  ((List.range cfg.gridWidth).flatMap
    (fun x => (List.range cfg.gridHeight).map (fun y => (Int.ofNat x, Int.ofNat y)))).filter
    (fun c => !decide (c ∈ occupiedCells g))

/-- `Game.spawn_food_if_needed`: spawn one food item when under
`max_fruits`, the spawn interval has elapsed, a positive-propensity type
exists, and a free cell exists; the configured lifetime 0 maps to
infinite (`none`) and `ticks_since_last_fruit` resets to 0.  `r` and `c`
are the oracles for the weighted type draw and the uniform cell draw. -/
def spawnFoodIfNeeded (cfg : Config) (r c : Nat) (g : Game) : Game :=
  if cfg.maxFruits ≤ g.foods.length then g
  else if g.ticksSinceLastFruit < cfg.fruitInterval then g
  else
    match chooseFruitType cfg r with
    | none => g
    | some t =>
      let lifetimeTicks := fruitLifetime cfg t
      let lifetime : Option Int := if 0 < lifetimeTicks then some (lifetimeTicks : Int) else none
      let available := availableCells cfg g
      if available.isEmpty then g
      else
        let pos := available.getD (c % available.length) (0, 0)
        { g with
            foods := g.foods ++ [⟨pos.1, pos.2, t, lifetime⟩]
            ticksSinceLastFruit := 0 }

/-! ## Room forfeit handling (`GameRoom.disconnect_player`) -/

/-- The `GameRoom` fields that `disconnect_player` reads or writes.
`connections`/`ready` hold the present player slots; `gameRunning` is
`self.game.running`; `uid1`/`uid2` are `player_uids`; `hasManager`
models `self.room_manager is not None`. -/
structure RoomState where
  connections : List Nat
  ready : List Nat
  gameRunning : Bool
  wins1 : Nat
  wins2 : Nat
  matchReported : Bool
  matchComplete : Bool
  uid1 : Option String
  uid2 : Option String
  hasManager : Bool
deriving DecidableEq, Repr

/-- The observable content of the `match_complete` broadcast emitted on
a forfeit: `winner.player_id`, the `forfeit` flag, and `final_score`. -/
structure CompleteMsg where
  winnerSlot : Nat
  forfeit : Bool
  finalWins1 : Nat
  finalWins2 : Nat
deriving DecidableEq, Repr

/-- The arguments of the `Competition.report_match_complete` call made
by the forfeit path. -/
structure ReportCall where
  winnerUid : String
  p1Uid : String
  p2Uid : String
  p1Points : Nat
  p2Points : Nat
deriving DecidableEq, Repr

/-- Result of one `disconnect_player` call: the new room state, the
`match_complete` broadcast (if any) and the competition report (if
any). -/
structure DisconnectOutcome where
  room : RoomState
  msg : Option CompleteMsg
  report : Option ReportCall
deriving DecidableEq, Repr

/-- `self.wins[slot]`. -/
def winsOf (r : RoomState) (slot : Nat) : Nat :=
  if slot = 1 then r.wins1 else r.wins2

/-- `self.wins[slot] = v`. -/
def setWins (r : RoomState) (slot : Nat) (v : Nat) : RoomState :=
  if slot = 1 then { r with wins1 := v } else { r with wins2 := v }

/-- `self.player_uids.get(slot)`. -/
def uidOf (r : RoomState) (slot : Nat) : Option String :=
  if slot = 1 then r.uid1 else r.uid2

/-- `GameRoom.disconnect_player(player_id)`.  `compActive` models
`competition.state == CompetitionState.IN_PROGRESS` and `ptw` models
`config.points_to_win`.  The tick-task cancellation and bot teardown
have no observable effect on these fields and are omitted. -/
def disconnectPlayer (compActive : Bool) (ptw : Nat) (r0 : RoomState) (pid : Nat) :
    DisconnectOutcome :=
  let wasRunning := r0.gameRunning
  let opponent := 3 - pid
  let opponentConnected := decide (opponent ∈ r0.connections)
  let r1 := { r0 with connections := r0.connections.erase pid, ready := r0.ready.erase pid }
  let forfeit := (wasRunning || compActive) && opponentConnected && !r1.matchReported
  let step :=
    if forfeit then
      let r2 := setWins { r1 with matchReported := true, matchComplete := true } opponent ptw
      let msg := some (⟨opponent, true, r2.wins1, r2.wins2⟩ : CompleteMsg)
      let report :=
        if r2.hasManager then
          match uidOf r2 opponent, r2.uid1, r2.uid2 with
          | some ouid, some u1, some u2 => some (⟨ouid, u1, u2, r2.wins1, r2.wins2⟩ : ReportCall)
          | _, _, _ => none
        else none
      (r2, msg, report)
    else (r1, none, none)
  let r3 :=
    if !step.1.matchComplete then
      { step.1 with gameRunning := false, wins1 := 0, wins2 := 0 }
    else step.1
  ⟨r3, step.2.1, step.2.2⟩

/-! ## Bracket advancement (`Competition._advance_round`) -/

/-- The `MatchResult` record; a Bye is the self-pairing
`p1Uid == p2Uid == winnerUid` with points 0/0. -/
structure MatchResult where
  player1Uid : String
  player2Uid : String
  winnerUid : String
  player1Points : Nat
  player2Points : Nat
deriving DecidableEq, Repr

/-- The Bye sort key comparison: Python sorts winners by the tuple
`(-game_points, last_match_finish_time, random.random())`; `gp`, `ft`
and `rnd` give each uid's game points, last match finish time and
random tiebreak draw. -/
def byeKeyLe (gp ft rnd : String → Nat) (a b : String) : Bool :=
  if gp a ≠ gp b then decide (gp b < gp a)
  else if ft a ≠ ft b then decide (ft a < ft b)
  else decide (rnd a ≤ rnd b)

/-- Adjacent pairing `[(l[0], l[1]), (l[2], l[3]), …]`. -/
def pairAdjacent : List String → List (String × String)
  | a :: b :: rest => (a, b) :: pairAdjacent rest
  | _ => []

/-- The observable outcome of `Competition._advance_round`: the declared
champion (single winner), the Bye uid, the next round's pairings, the
next round's pre-seeded result list, and the updated
`last_match_finish_time` map. -/
structure AdvanceOutcome where
  champion : Option String
  byeUid : Option String
  pairings : List (String × String)
  newResults : List MatchResult
  finishTime : String → Nat

/-- `Competition._advance_round`, given the winner uids of the finished
round.  `shuffle` models `random.shuffle`, `now` models `time.time()`
at the Bye update, `rnd` the per-player `random.random()` tiebreak. -/
def advanceRound (gp ft rnd : String → Nat) (shuffle : List String → List String)
    (now : Nat) (winners : List String) : AdvanceOutcome :=
  if winners.length = 1 then
    { champion := some (winners.headD ""), byeUid := none, pairings := [],
      newResults := [], finishTime := ft }
  else
    let sel :=
      if winners.length % 2 = 1 then
        let sorted := winners.mergeSort (byeKeyLe gp ft rnd)
        let b := sorted.headD ""
        (some b, winners.erase b)
      else (none, winners)
    let shuffled := shuffle sel.2
    let pairings := pairAdjacent shuffled
    match sel.1 with
    | some b =>
      { champion := none, byeUid := some b, pairings := pairings,
        newResults := [⟨b, b, b, 0, 0⟩],
        finishTime := fun u => if u = b then now else ft u }
    | none =>
      { champion := none, byeUid := none, pairings := pairings,
        newResults := [], finishTime := ft }

/-! ## Matchmaking (`RoomManager.find_or_create_room`) -/

/-- The `GameRoom` fields that matchmaking reads: which player slots are
connected and whether the game is running. -/
structure RoomM where
  slot1 : Bool
  slot2 : Bool
  gameRunning : Bool
deriving DecidableEq, Repr

/-- `len(self.connections)`. -/
def RoomM.connCount (r : RoomM) : Nat :=
  (if r.slot1 then 1 else 0) + (if r.slot2 then 1 else 0)

/-- `GameRoom.is_waiting_for_player`: exactly one connection and game
not running. -/
def RoomM.isWaitingForPlayer (r : RoomM) : Bool :=
  decide (r.connCount = 1) && !r.gameRunning

/-- `GameRoom.is_empty`. -/
def RoomM.isEmptyRoom (r : RoomM) : Bool :=
  decide (r.connCount = 0)

/-- `GameRoom.get_available_slot() or 2` as used by matchmaking. -/
def RoomM.availableSlot (r : RoomM) : Nat :=
  if !r.slot1 then 1 else if !r.slot2 then 2 else 2

/-- A freshly constructed `GameRoom` (no connections, game not
running). -/
def newRoom : RoomM := ⟨false, false, false⟩

/-- `MAX_ROOMS`. -/
def MAX_ROOMS : Nat := 10

/-- The room registry: a CPython dict keyed by room id, modelled as an
association list in insertion order. -/
def Registry := List (Nat × RoomM)

/-- Dict lookup `self.rooms.get(k)`. -/
def dictLookup (rooms : List (Nat × RoomM)) (k : Nat) : Option RoomM :=
  (rooms.find? (fun p => decide (p.1 = k))).map (fun p => p.2)

/-- Dict assignment `self.rooms[k] = v`: replaces in place when the key
exists (CPython preserves the key's position), appends otherwise. -/
def dictInsert (rooms : List (Nat × RoomM)) (k : Nat) (v : RoomM) : List (Nat × RoomM) :=
  if rooms.any (fun p => decide (p.1 = k)) then
    rooms.map (fun p => if p.1 = k then (k, v) else p)
  else
    rooms ++ [(k, v)]

/-- `room_id not in self.rooms or self.rooms[room_id].is_empty()`. -/
def isFreeId (rooms : List (Nat × RoomM)) (rid : Nat) : Bool :=
  match dictLookup rooms rid with
  | none => true
  | some r => r.isEmptyRoom

/-- `RoomManager.find_or_create_room`: first waiting room in dict
iteration order, else a new room at the first id in `1..MAX_ROOMS` that
is absent or empty, else nothing.  Returns the `(room_id, slot)`
assignment and the updated registry. -/
def findOrCreateRoom (rooms : List (Nat × RoomM)) :
    Option (Nat × Nat) × List (Nat × RoomM) :=
  match rooms.find? (fun p => p.2.isWaitingForPlayer) with
  | some p => (some (p.1, p.2.availableSlot), rooms)
  | none =>
    match (List.range' 1 MAX_ROOMS).find? (isFreeId rooms) with
    | some rid => (some (rid, 1), dictInsert rooms rid newRoom)
    | none => (none, rooms)

/-! ## Basic field-preservation lemmas -/

theorem processInput_preserve (s : Snake) :
    s.processInput.playerId = s.playerId ∧ s.processInput.body = s.body ∧
    s.processInput.alive = s.alive ∧ s.processInput.direction = s.direction := by
  unfold Snake.processInput
  cases hq : s.inputQueue with
  | nil => exact ⟨rfl, rfl, rfl, rfl⟩
  | cons d rest =>
    simp only
    split <;> exact ⟨rfl, rfl, rfl, rfl⟩

theorem move_preserve (s : Snake) (grow : Bool) :
    (s.move grow).playerId = s.playerId ∧ (s.move grow).alive = s.alive := by
  unfold Snake.move
  simp only
  exact ⟨(processInput_preserve s).1, (processInput_preserve s).2.2.1⟩

theorem move_length_true (s : Snake) :
    (s.move true).body.length = s.body.length + 1 := by
  unfold Snake.move
  simp only [if_pos]
  simp [List.length_cons, (processInput_preserve s).2.1]

theorem move_length_false (s : Snake) :
    (s.move false).body.length = s.body.length := by
  unfold Snake.move
  simp only [Bool.false_eq_true, if_false]
  simp [List.length_dropLast, (processInput_preserve s).2.1]

theorem shrinkTail_preserve (s : Snake) :
    s.shrinkTail.playerId = s.playerId ∧ s.shrinkTail.alive = s.alive ∧
    s.shrinkTail.direction = s.direction ∧ s.shrinkTail.nextDirection = s.nextDirection ∧
    s.shrinkTail.inputQueue = s.inputQueue := by
  unfold Snake.shrinkTail
  split <;> exact ⟨rfl, rfl, rfl, rfl, rfl⟩

theorem shrinkTail_length (s : Snake) :
    s.shrinkTail.body.length =
      if 1 < s.body.length then s.body.length - 1 else s.body.length := by
  unfold Snake.shrinkTail
  split
  case isTrue h => simp [List.length_dropLast, h]
  case isFalse h => simp [h]

theorem shrinkTail_getNextHead (s : Snake) :
    s.shrinkTail.getNextHead = s.getNextHead := by
  unfold Snake.shrinkTail
  split
  case isTrue h =>
    obtain ⟨x, y, t, hb⟩ : ∃ x y t, s.body = x :: y :: t := by
      cases hb : s.body with
      | nil => rw [hb] at h; simp at h
      | cons x l =>
        cases l with
        | nil => rw [hb] at h; simp at h
        | cons y t => exact ⟨x, y, t, rfl⟩
    unfold Snake.getNextHead Snake.headPos
    simp [hb]
  case isFalse h => rfl

theorem collideSnake_preserve (cfg : Config) (s o : Snake) :
    (collideSnake cfg s o).body = s.body ∧
    (collideSnake cfg s o).playerId = s.playerId ∧
    (collideSnake cfg s o).changedDirectionLastMove = s.changedDirectionLastMove := by
  unfold collideSnake
  dsimp only
  split
  · split <;> exact ⟨rfl, rfl, rfl⟩
  · exact ⟨rfl, rfl, rfl⟩

theorem collide_preserve (cfg : Config) (g : Game) :
    (collide cfg g).foods = g.foods ∧ (collide cfg g).running = g.running ∧
    (collide cfg g).winner = g.winner ∧
    (collide cfg g).snake1.body = g.snake1.body ∧
    (collide cfg g).snake2.body = g.snake2.body ∧
    (collide cfg g).snake1.playerId = g.snake1.playerId ∧
    (collide cfg g).snake2.playerId = g.snake2.playerId ∧
    (collide cfg g).snake1.changedDirectionLastMove = g.snake1.changedDirectionLastMove ∧
    (collide cfg g).snake2.changedDirectionLastMove = g.snake2.changedDirectionLastMove := by
  refine ⟨rfl, rfl, rfl, ?_, ?_, ?_, ?_, ?_, ?_⟩ <;>
    simp [collide, collideSnake_preserve]

theorem headOn_preserve (g : Game) :
    (headOn g).foods = g.foods ∧ (headOn g).running = g.running ∧
    (headOn g).winner = g.winner ∧
    (headOn g).snake1.body = g.snake1.body ∧
    (headOn g).snake2.body = g.snake2.body ∧
    (headOn g).snake1.playerId = g.snake1.playerId ∧
    (headOn g).snake2.playerId = g.snake2.playerId ∧
    (headOn g).snake1.changedDirectionLastMove = g.snake1.changedDirectionLastMove ∧
    (headOn g).snake2.changedDirectionLastMove = g.snake2.changedDirectionLastMove := by
  unfold headOn
  dsimp only
  split
  · exact ⟨rfl, rfl, rfl, rfl, rfl, rfl, rfl, rfl, rfl⟩
  · split
    · exact ⟨rfl, rfl, rfl, rfl, rfl, rfl, rfl, rfl, rfl⟩
    · exact ⟨rfl, rfl, rfl, rfl, rfl, rfl, rfl, rfl, rfl⟩

theorem finalize_preserve (g : Game) :
    (finalize g).snake1 = g.snake1 ∧ (finalize g).snake2 = g.snake2 ∧
    (finalize g).foods = g.foods := by
  unfold finalize
  split <;> exact ⟨rfl, rfl, rfl⟩

/-! ## C10: `get_next_head` agrees with `process_input` + `move` -/

/-- C10 — For every snake with a non-empty body and any input queue,
the cell predicted by `get_next_head` (used for the fruit lookup)
equals the head cell the snake occupies after `process_input` and
`move` run, growing or not. -/
theorem getNextHead_agrees_move (s : Snake) (h : s.body ≠ []) (grow : Bool) :
    (s.move grow).headPos = s.getNextHead := by
  obtain ⟨pid, body, dir, nd, q, al, ch⟩ := s
  obtain ⟨x, xs, rfl⟩ : ∃ x xs, body = x :: xs := by
    cases body with
    | nil => simp at h
    | cons x xs => exact ⟨x, xs, rfl⟩
  cases q with
  | nil =>
    cases grow <;>
      simp [Snake.move, Snake.processInput, Snake.getNextHead, Snake.headPos,
        List.dropLast_cons₂]
  | cons c rest =>
    by_cases hc : c.opposite = dir <;>
      cases grow <;>
        simp [Snake.move, Snake.processInput, Snake.getNextHead, Snake.headPos,
          List.dropLast_cons₂, hc]

/-- Witness for C10 at a concrete snake. -/
theorem getNextHead_agrees_move_witness :
    ((⟨1, [(3, 3)], Dir.right, Dir.right, [Dir.up], true, false⟩ : Snake).body ≠ []) ∧
    ((⟨1, [(3, 3)], Dir.right, Dir.right, [Dir.up], true, false⟩ : Snake).move false).headPos =
      (⟨1, [(3, 3)], Dir.right, Dir.right, [Dir.up], true, false⟩ : Snake).getNextHead :=
  ⟨by decide, getNextHead_agrees_move _ (by decide) false⟩

/-! ## C1: the §8 head-on boundary scenario -/

/-- The 10×10 grid of the §8 head-on boundary scenario. -/
def headOnCfg : Config := ⟨10, 10, 1, 5, [(FruitType.apple, ⟨1, 0⟩)], 1⟩

/-- Snake 1 (length 1) at (4,5) facing right, Snake 2 (length 1) at
(5,5) facing left, no queued inputs, game running. -/
def headOnGame : Game :=
  { snake1 := ⟨1, [(4, 5)], Dir.right, Dir.right, [], true, false⟩
    snake2 := ⟨2, [(5, 5)], Dir.left, Dir.left, [], true, false⟩
    foods := []
    running := true
    winner := none
    ticksSinceLastFruit := 0 }

/-- C1 counterexample — in the claimed scenario the crossed-path check
does not fire (it requires both bodies to have length ≥ 2), so it is
false that both snakes die and the game stops. -/
theorem headOnSwap_len1_counterexample :
    ¬ ((Game.update headOnCfg headOnGame).snake1.alive = false ∧
       (Game.update headOnCfg headOnGame).snake2.alive = false ∧
       (Game.update headOnCfg headOnGame).running = false) := by decide

/-- C1 amended — in the claimed scenario one step leaves both snakes
alive at swapped positions (5,5) and (4,5), the game keeps running and
no winner is set: the swapped-positions head-on kill of `Game.update`
applies only to bodies of length ≥ 2. -/
theorem headOnSwap_len1_survives :
    (Game.update headOnCfg headOnGame).snake1.alive = true ∧
    (Game.update headOnCfg headOnGame).snake2.alive = true ∧
    (Game.update headOnCfg headOnGame).snake1.body = [(5, 5)] ∧
    (Game.update headOnCfg headOnGame).snake2.body = [(4, 5)] ∧
    (Game.update headOnCfg headOnGame).running = true ∧
    (Game.update headOnCfg headOnGame).winner = none := by decide

/-! ## C3: the input-queue contract -/

/-- The direction a new command is validated against: the last queued
direction, or `next_direction` when the queue is empty. -/
def lastQueuedDir (s : Snake) : Dir :=
  s.inputQueue.getLast?.getD s.nextDirection

/-- No two consecutive queue entries are equal or opposite. -/
def queueOk : List Dir → Prop :=
  List.Chain' (fun a b => b ≠ a ∧ b.opposite ≠ a)

theorem queueDirection_inv (s : Snake) (d : Dir)
    (hl : s.inputQueue.length ≤ 3) (hq : queueOk s.inputQueue) :
    (s.queueDirection d).inputQueue.length ≤ 3 ∧
    queueOk (s.queueDirection d).inputQueue := by
  unfold Snake.queueDirection
  simp only
  split
  case isTrue hacc =>
    have hchain : queueOk (s.inputQueue ++ [d]) := by
      unfold queueOk at hq ⊢
      rw [List.chain'_append]
      refine ⟨hq, List.chain'_singleton _, ?_⟩
      intro x hx y hy
      simp only [List.head?_cons, Option.mem_def, Option.some.injEq] at hy
      subst hy
      have hlast : s.inputQueue.getLast?.getD s.nextDirection = x := by
        simp only [Option.mem_def] at hx
        rw [hx]
        rfl
      rw [hlast] at hacc
      exact ⟨hacc.2, hacc.1⟩
    dsimp only
    split
    case isTrue h3 =>
      refine ⟨?_, List.Chain'.tail hchain⟩
      have e1 : (s.inputQueue ++ [d]).length = s.inputQueue.length + 1 := by simp
      have e2 := List.length_tail (s.inputQueue ++ [d])
      omega
    case isFalse h3 =>
      exact ⟨by omega, hchain⟩
  case isFalse hrej => exact ⟨hl, hq⟩

theorem foldl_queueDirection_inv (ds : List Dir) (s : Snake)
    (hl : s.inputQueue.length ≤ 3) (hq : queueOk s.inputQueue) :
    (ds.foldl Snake.queueDirection s).inputQueue.length ≤ 3 ∧
    queueOk (ds.foldl Snake.queueDirection s).inputQueue := by
  induction ds generalizing s with
  | nil => exact ⟨hl, hq⟩
  | cons d ds ih =>
    exact ih _ (queueDirection_inv s d hl hq).1 (queueDirection_inv s d hl hq).2

/-- C3 — Starting from an empty queue, any sequence of
`queue_direction` calls keeps the queue at ≤ 3 entries with no two
consecutive entries equal or opposite; a direction equal or opposite to
the last-queued direction (or to `next_direction` when the queue is
empty) is rejected and leaves the snake unchanged; and a snake moving
right that receives three `move left` commands still has an empty queue
and direction right after the next step. -/
theorem queueDirection_contract (s : Snake) (h : s.inputQueue = []) (ds : List Dir) :
    ((ds.foldl Snake.queueDirection s).inputQueue.length ≤ 3 ∧
      queueOk (ds.foldl Snake.queueDirection s).inputQueue) ∧
    (∀ t : Snake, ∀ d : Dir,
      (d = lastQueuedDir t ∨ d.opposite = lastQueuedDir t) → t.queueDirection d = t) ∧
    (([Dir.left, Dir.left, Dir.left].foldl Snake.queueDirection
        ⟨1, [(5, 10)], Dir.right, Dir.right, [], true, false⟩).inputQueue = [] ∧
      (([Dir.left, Dir.left, Dir.left].foldl Snake.queueDirection
        ⟨1, [(5, 10)], Dir.right, Dir.right, [], true, false⟩).move false).direction = Dir.right) := by
  refine ⟨?_, ?_, by decide, by decide⟩
  · exact foldl_queueDirection_inv ds s (by simp [h]) (by simp [h, queueOk])
  · intro t d hd
    unfold Snake.queueDirection
    simp only
    rw [if_neg]
    unfold lastQueuedDir at hd
    rcases hd with hd | hd
    · intro hcon
      exact hcon.2 hd
    · intro hcon
      exact hcon.1 hd

/-- Witness for C3 at a concrete snake and input sequence. -/
theorem queueDirection_contract_witness :
    ((⟨1, [(5, 10)], Dir.right, Dir.right, [], true, false⟩ : Snake).inputQueue = []) ∧
    (([Dir.up, Dir.up, Dir.left, Dir.down].foldl Snake.queueDirection
        ⟨1, [(5, 10)], Dir.right, Dir.right, [], true, false⟩).inputQueue.length ≤ 3 ∧
      queueOk ([Dir.up, Dir.up, Dir.left, Dir.down].foldl Snake.queueDirection
        ⟨1, [(5, 10)], Dir.right, Dir.right, [], true, false⟩).inputQueue) :=
  ⟨rfl, (queueDirection_contract _ rfl _).1⟩

theorem eatAndMove1_preserve (g : Game) :
    (eatAndMove1 g).running = g.running ∧ (eatAndMove1 g).winner = g.winner ∧
    (eatAndMove1 g).snake1.playerId = g.snake1.playerId ∧
    (eatAndMove1 g).snake2.playerId = g.snake2.playerId ∧
    (eatAndMove1 g).snake2.alive = g.snake2.alive := by
  unfold eatAndMove1
  dsimp only
  split
  case isTrue =>
    split
    · exact ⟨rfl, rfl, (move_preserve _ _).1, rfl, rfl⟩
    · dsimp only
      refine ⟨rfl, rfl, (move_preserve _ _).1, ?_, ?_⟩ <;>
        split <;> simp [shrinkTail_preserve]
  case isFalse => exact ⟨rfl, rfl, rfl, rfl, rfl⟩

theorem eatAndMove2_preserve (g : Game) :
    (eatAndMove2 g).running = g.running ∧ (eatAndMove2 g).winner = g.winner ∧
    (eatAndMove2 g).snake1.playerId = g.snake1.playerId ∧
    (eatAndMove2 g).snake2.playerId = g.snake2.playerId ∧
    (eatAndMove2 g).snake1.alive = g.snake1.alive := by
  unfold eatAndMove2
  dsimp only
  split
  case isTrue =>
    split
    · exact ⟨rfl, rfl, rfl, (move_preserve _ _).1, rfl⟩
    · dsimp only
      refine ⟨rfl, rfl, ?_, (move_preserve _ _).1, ?_⟩ <;>
        split <;> simp [shrinkTail_preserve]
  case isFalse => exact ⟨rfl, rfl, rfl, rfl, rfl⟩

theorem tiebreakWinner_cases (s1 s2 : Snake) :
    tiebreakWinner s1 s2 = none ∨ tiebreakWinner s1 s2 = some s1.playerId ∨
    tiebreakWinner s1 s2 = some s2.playerId := by
  unfold tiebreakWinner
  split_ifs <;> tauto

/-! ## C2: the simultaneous-death tiebreak -/

/-- C2 — When both snakes are alive and the game running before a step
and both are dead after it, the step stops the game and sets the winner
per the tiebreak: the strictly longer snake's player id wins; at equal
lengths, if exactly one snake changed direction this move, the snake
that did not change wins; if both or neither changed, the winner is
null. -/
theorem bothDead_tiebreak (cfg : Config) (g : Game)
    (ha1 : g.snake1.alive = true) (ha2 : g.snake2.alive = true)
    (hrun : g.running = true)
    (h1 : (Game.update cfg g).snake1.alive = false)
    (h2 : (Game.update cfg g).snake2.alive = false) :
    (Game.update cfg g).running = false ∧
    ((Game.update cfg g).snake2.body.length < (Game.update cfg g).snake1.body.length →
      (Game.update cfg g).winner = some (Game.update cfg g).snake1.playerId) ∧
    ((Game.update cfg g).snake1.body.length < (Game.update cfg g).snake2.body.length →
      (Game.update cfg g).winner = some (Game.update cfg g).snake2.playerId) ∧
    ((Game.update cfg g).snake1.body.length = (Game.update cfg g).snake2.body.length →
      (Game.update cfg g).snake1.changedDirectionLastMove = true →
      (Game.update cfg g).snake2.changedDirectionLastMove = false →
      (Game.update cfg g).winner = some (Game.update cfg g).snake2.playerId) ∧
    ((Game.update cfg g).snake1.body.length = (Game.update cfg g).snake2.body.length →
      (Game.update cfg g).snake2.changedDirectionLastMove = true →
      (Game.update cfg g).snake1.changedDirectionLastMove = false →
      (Game.update cfg g).winner = some (Game.update cfg g).snake1.playerId) ∧
    ((Game.update cfg g).snake1.body.length = (Game.update cfg g).snake2.body.length →
      (Game.update cfg g).snake1.changedDirectionLastMove =
        (Game.update cfg g).snake2.changedDirectionLastMove →
      (Game.update cfg g).winner = none) := by
  have hu : Game.update cfg g =
      finalize (headOn (collide cfg (eatAndMove2 (eatAndMove1 g)))) := by
    unfold Game.update
    rw [if_pos hrun]
  have e1 : (Game.update cfg g).snake1 =
      (headOn (collide cfg (eatAndMove2 (eatAndMove1 g)))).snake1 := by
    rw [hu]
    exact (finalize_preserve _).1
  have e2 : (Game.update cfg g).snake2 =
      (headOn (collide cfg (eatAndMove2 (eatAndMove1 g)))).snake2 := by
    rw [hu]
    exact (finalize_preserve _).2.1
  have hd1 : (headOn (collide cfg (eatAndMove2 (eatAndMove1 g)))).snake1.alive = false := by
    rw [← e1]
    exact h1
  have hd2 : (headOn (collide cfg (eatAndMove2 (eatAndMove1 g)))).snake2.alive = false := by
    rw [← e2]
    exact h2
  have hcount : aliveCount (headOn (collide cfg (eatAndMove2 (eatAndMove1 g)))) ≤ 1 := by
    unfold aliveCount
    rw [hd1, hd2]
    simp
  have hfin : Game.update cfg g =
      { headOn (collide cfg (eatAndMove2 (eatAndMove1 g))) with
          running := false
          winner := tiebreakWinner (headOn (collide cfg (eatAndMove2 (eatAndMove1 g)))).snake1
            (headOn (collide cfg (eatAndMove2 (eatAndMove1 g)))).snake2 } := by
    rw [hu]
    unfold finalize
    rw [if_pos hcount, hd1, hd2]
    simp
  rw [hfin]
  dsimp only
  refine ⟨rfl, ?_, ?_, ?_, ?_, ?_⟩
  · intro h
    unfold tiebreakWinner
    rw [if_pos h]
  · intro h
    unfold tiebreakWinner
    rw [if_neg (by omega), if_pos h]
  · intro hl hc1 hc2
    unfold tiebreakWinner
    rw [if_neg (by omega), if_neg (by omega), if_pos ⟨hc1, by simp [hc2]⟩]
  · intro hl hc2 hc1
    unfold tiebreakWinner
    rw [if_neg (by omega), if_neg (by omega), if_neg (by simp [hc1]),
      if_pos ⟨hc2, by simp [hc1]⟩]
  · intro hl hc
    unfold tiebreakWinner
    rw [if_neg (by omega), if_neg (by omega)]
    cases hb : (headOn (collide cfg (eatAndMove2 (eatAndMove1 g)))).snake1.changedDirectionLastMove
    · rw [hb] at hc
      rw [if_neg (by simp [hb]), if_neg (by simp [← hc])]
    · rw [hb] at hc
      rw [if_neg (by simp [← hc]), if_neg (by simp [hb])]

/-- The 5×5 grid used by concrete two-snake wall-death scenarios. -/
def wallCfg : Config := ⟨5, 5, 1, 5, [], 1⟩

/-- Both snakes run head-first into opposite walls on the same tick. -/
def wallGame : Game :=
  { snake1 := ⟨1, [(0, 2)], Dir.left, Dir.left, [], true, false⟩
    snake2 := ⟨2, [(4, 2)], Dir.right, Dir.right, [], true, false⟩
    foods := []
    running := true
    winner := none
    ticksSinceLastFruit := 0 }

/-- Witness for C2: equal lengths, neither changed direction → draw. -/
theorem bothDead_tiebreak_witness :
    ((Game.update wallCfg wallGame).snake1.alive = false ∧
      (Game.update wallCfg wallGame).snake2.alive = false) ∧
    ((Game.update wallCfg wallGame).running = false ∧
      (Game.update wallCfg wallGame).winner = none) := by
  have h := bothDead_tiebreak wallCfg wallGame rfl rfl rfl (by decide) (by decide)
  exact ⟨⟨by decide, by decide⟩, h.1, h.2.2.2.2.2 (by decide) (by decide)⟩

/-! ## C8: the termination invariant of one step -/

/-- C8 — For a valid running game state (winner unset, player ids 1 and
2), after one step exactly one of these holds: the game is still
running with winner unset, or `running = false` with
`winner ∈ {null, 1, 2}`; and the step sets `running = false` exactly
when at most one snake remains alive. -/
theorem update_termination (cfg : Config) (g : Game)
    (hrun : g.running = true) (hw : g.winner = none)
    (hp1 : g.snake1.playerId = 1) (hp2 : g.snake2.playerId = 2) :
    ((Game.update cfg g).running = true → (Game.update cfg g).winner = none) ∧
    ((Game.update cfg g).running = false →
      (Game.update cfg g).winner = none ∨ (Game.update cfg g).winner = some 1 ∨
        (Game.update cfg g).winner = some 2) ∧
    ((Game.update cfg g).running = false ↔ aliveCount (Game.update cfg g) ≤ 1) := by
  have hu : Game.update cfg g =
      finalize (headOn (collide cfg (eatAndMove2 (eatAndMove1 g)))) := by
    unfold Game.update
    rw [if_pos hrun]
  obtain ⟨he1r, he1w, he1p1, he1p2, _⟩ := eatAndMove1_preserve g
  obtain ⟨he2r, he2w, he2p1, he2p2, _⟩ := eatAndMove2_preserve (eatAndMove1 g)
  obtain ⟨_, hcr, hcw, _, _, hcp1, hcp2, _, _⟩ :=
    collide_preserve cfg (eatAndMove2 (eatAndMove1 g))
  obtain ⟨_, hhr, hhw, _, _, hhp1, hhp2, _, _⟩ :=
    headOn_preserve (collide cfg (eatAndMove2 (eatAndMove1 g)))
  have hgr : (headOn (collide cfg (eatAndMove2 (eatAndMove1 g)))).running = true := by
    rw [hhr, hcr, he2r, he1r, hrun]
  have hgw : (headOn (collide cfg (eatAndMove2 (eatAndMove1 g)))).winner = none := by
    rw [hhw, hcw, he2w, he1w, hw]
  have hgp1 : (headOn (collide cfg (eatAndMove2 (eatAndMove1 g)))).snake1.playerId = 1 := by
    rw [hhp1, hcp1, he2p1, he1p1, hp1]
  have hgp2 : (headOn (collide cfg (eatAndMove2 (eatAndMove1 g)))).snake2.playerId = 2 := by
    rw [hhp2, hcp2, he2p2, he1p2, hp2]
  have hcnt : aliveCount (Game.update cfg g) =
      aliveCount (headOn (collide cfg (eatAndMove2 (eatAndMove1 g)))) := by
    rw [hu]
    unfold aliveCount
    rw [(finalize_preserve _).1, (finalize_preserve _).2.1]
  by_cases hc : aliveCount (headOn (collide cfg (eatAndMove2 (eatAndMove1 g)))) ≤ 1
  · have hfin : Game.update cfg g =
        { headOn (collide cfg (eatAndMove2 (eatAndMove1 g))) with
            running := false
            winner :=
              if (headOn (collide cfg (eatAndMove2 (eatAndMove1 g)))).snake1.alive then
                some (headOn (collide cfg (eatAndMove2 (eatAndMove1 g)))).snake1.playerId
              else if (headOn (collide cfg (eatAndMove2 (eatAndMove1 g)))).snake2.alive then
                some (headOn (collide cfg (eatAndMove2 (eatAndMove1 g)))).snake2.playerId
              else tiebreakWinner (headOn (collide cfg (eatAndMove2 (eatAndMove1 g)))).snake1
                (headOn (collide cfg (eatAndMove2 (eatAndMove1 g)))).snake2 } := by
      rw [hu]
      unfold finalize
      rw [if_pos hc]
    refine ⟨?_, ?_, ?_⟩
    · intro hr
      rw [hfin] at hr
      simp at hr
    · intro _
      rw [hfin]
      dsimp only
      by_cases hA : (headOn (collide cfg (eatAndMove2 (eatAndMove1 g)))).snake1.alive = true
      · rw [if_pos hA, hgp1]
        tauto
      · rw [if_neg hA]
        by_cases hB : (headOn (collide cfg (eatAndMove2 (eatAndMove1 g)))).snake2.alive = true
        · rw [if_pos hB, hgp2]
          tauto
        · rw [if_neg hB]
          rcases tiebreakWinner_cases
              (headOn (collide cfg (eatAndMove2 (eatAndMove1 g)))).snake1
              (headOn (collide cfg (eatAndMove2 (eatAndMove1 g)))).snake2 with h | h | h <;>
            rw [h] <;> [tauto; rw [hgp1]; rw [hgp2]] <;> tauto
    · rw [hcnt]
      constructor
      · intro _
        exact hc
      · intro _
        rw [hfin]
  · have hfin : Game.update cfg g = headOn (collide cfg (eatAndMove2 (eatAndMove1 g))) := by
      rw [hu]
      unfold finalize
      rw [if_neg hc]
    refine ⟨?_, ?_, ?_⟩
    · intro _
      rw [hfin]
      exact hgw
    · intro hr
      rw [hfin, hgr] at hr
      cases hr
    · rw [hfin, hgr]
      constructor
      · intro hr
        cases hr
      · intro hcl
        exact absurd hcl hc

/-- Witness for C8: in the double wall-death scenario the step stops
the game with a null winner and no snake alive. -/
theorem update_termination_witness :
    ((Game.update wallCfg wallGame).running = false →
      (Game.update wallCfg wallGame).winner = none ∨
      (Game.update wallCfg wallGame).winner = some 1 ∨
      (Game.update wallCfg wallGame).winner = some 2) ∧
    ((Game.update wallCfg wallGame).running = false ↔
      aliveCount (Game.update wallCfg wallGame) ≤ 1) := by
  have h := update_termination wallCfg wallGame rfl rfl rfl rfl
  exact ⟨h.2.1, h.2.2⟩

/-! ## C4: fruit effects -/

theorem getFoodAt_remove_none (foods : List Food) (p q : Int × Int)
    (h : getFoodAt foods p = none) : getFoodAt (removeFoodAt foods q) p = none := by
  unfold getFoodAt removeFoodAt at *
  rw [List.find?_eq_none] at h ⊢
  intro f hf
  exact h f (List.mem_of_mem_filter hf)

theorem update_body_foods (cfg : Config) (g : Game) (hrun : g.running = true) :
    (Game.update cfg g).snake1.body = (eatAndMove2 (eatAndMove1 g)).snake1.body ∧
    (Game.update cfg g).snake2.body = (eatAndMove2 (eatAndMove1 g)).snake2.body ∧
    (Game.update cfg g).foods = (eatAndMove2 (eatAndMove1 g)).foods := by
  have hu : Game.update cfg g =
      finalize (headOn (collide cfg (eatAndMove2 (eatAndMove1 g)))) := by
    unfold Game.update
    rw [if_pos hrun]
  obtain ⟨hcf, _, _, hcb1, hcb2, _, _, _, _⟩ :=
    collide_preserve cfg (eatAndMove2 (eatAndMove1 g))
  obtain ⟨hhf, _, _, hhb1, hhb2, _, _, _, _⟩ :=
    headOn_preserve (collide cfg (eatAndMove2 (eatAndMove1 g)))
  obtain ⟨hf1, hf2, hf3⟩ := finalize_preserve (headOn (collide cfg (eatAndMove2 (eatAndMove1 g))))
  refine ⟨?_, ?_, ?_⟩
  · rw [hu, hf1, hhb1, hcb1]
  · rw [hu, hf2, hhb2, hcb2]
  · rw [hu, hf3, hhf, hcf]

/-- C4 amended — Provided the *other* snake's next head holds no fruit
that step (so no interleaved grapes effect), a live snake whose next
head holds a fruit behaves as claimed: an apple grows it by exactly 1;
grapes grow it by 1 and shrink the other snake by one tail cell when
its length exceeds 1 (never below length 1); and the consumed fruit is
removed from `foods`. -/
theorem fruitEffect_isolated (cfg : Config) (g : Game)
    (hrun : g.running = true)
    (hb1 : g.snake1.body ≠ []) (hb2 : g.snake2.body ≠ []) :
    (∀ f : Food, g.snake1.alive = true →
      getFoodAt g.foods g.snake1.getNextHead = some f →
      getFoodAt g.foods g.snake2.getNextHead = none →
      (f.ftype = FruitType.apple →
        (Game.update cfg g).snake1.body.length = g.snake1.body.length + 1) ∧
      (f.ftype = FruitType.grapes →
        (Game.update cfg g).snake1.body.length = g.snake1.body.length + 1 ∧
        (Game.update cfg g).snake2.body.length =
          (if 1 < g.snake2.body.length then g.snake2.body.length - 1
           else g.snake2.body.length) ∧
        1 ≤ (Game.update cfg g).snake2.body.length) ∧
      (Game.update cfg g).foods = removeFoodAt g.foods g.snake1.getNextHead) ∧
    (∀ f : Food, g.snake2.alive = true →
      getFoodAt g.foods g.snake2.getNextHead = some f →
      getFoodAt g.foods g.snake1.getNextHead = none →
      (f.ftype = FruitType.apple →
        (Game.update cfg g).snake2.body.length = g.snake2.body.length + 1) ∧
      (f.ftype = FruitType.grapes →
        (Game.update cfg g).snake2.body.length = g.snake2.body.length + 1 ∧
        (Game.update cfg g).snake1.body.length =
          (if 1 < g.snake1.body.length then g.snake1.body.length - 1
           else g.snake1.body.length) ∧
        1 ≤ (Game.update cfg g).snake1.body.length) ∧
      (Game.update cfg g).foods = removeFoodAt g.foods g.snake2.getNextHead) := by
  obtain ⟨hub1, hub2, huf⟩ := update_body_foods cfg g hrun
  constructor
  · intro f ha1 hf1 hf2
    have hE1 : eatAndMove1 g =
        { g with
            snake1 := g.snake1.move
              (decide (f.ftype = FruitType.apple ∨ f.ftype = FruitType.grapes))
            snake2 := if f.ftype = FruitType.grapes then g.snake2.shrinkTail else g.snake2
            foods := removeFoodAt g.foods g.snake1.getNextHead } := by
      simp only [eatAndMove1, ha1, if_true, hf1]
    have hs2alive : (eatAndMove1 g).snake2.alive = g.snake2.alive := by
      rw [hE1]
      dsimp only
      split <;> simp [shrinkTail_preserve]
    have hs2head : (eatAndMove1 g).snake2.getNextHead = g.snake2.getNextHead := by
      rw [hE1]
      dsimp only
      split <;> simp [shrinkTail_getNextHead]
    have hs2len : (eatAndMove1 g).snake2.body.length =
        (if f.ftype = FruitType.grapes then
          (if 1 < g.snake2.body.length then g.snake2.body.length - 1
           else g.snake2.body.length)
         else g.snake2.body.length) := by
      rw [hE1]
      dsimp only
      split <;> simp [shrinkTail_length]
    have hA : (eatAndMove2 (eatAndMove1 g)).snake1 = (eatAndMove1 g).snake1 ∧
        (eatAndMove2 (eatAndMove1 g)).foods = (eatAndMove1 g).foods ∧
        (eatAndMove2 (eatAndMove1 g)).snake2.body.length =
          (eatAndMove1 g).snake2.body.length := by
      by_cases hb : g.snake2.alive = true
      · have halive : (eatAndMove1 g).snake2.alive = true := by rw [hs2alive, hb]
        have hlook :
            getFoodAt (eatAndMove1 g).foods (eatAndMove1 g).snake2.getNextHead = none := by
          have : (eatAndMove1 g).foods = removeFoodAt g.foods g.snake1.getNextHead := by
            rw [hE1]
          rw [this, hs2head]
          exact getFoodAt_remove_none _ _ _ hf2
        have hE2 : eatAndMove2 (eatAndMove1 g) =
            { eatAndMove1 g with snake2 := (eatAndMove1 g).snake2.move false } := by
          simp only [eatAndMove2, halive, if_true, hlook]
        rw [hE2]
        exact ⟨rfl, rfl, move_length_false _⟩
      · have halive : ¬((eatAndMove1 g).snake2.alive = true) := by
          rw [hs2alive]
          exact hb
        have hE2 : eatAndMove2 (eatAndMove1 g) = eatAndMove1 g := by
          simp only [eatAndMove2]
          rw [if_neg halive]
        rw [hE2]
        exact ⟨rfl, rfl, rfl⟩
    have hfoods : (Game.update cfg g).foods = removeFoodAt g.foods g.snake1.getNextHead := by
      rw [huf, hA.2.1, hE1]
    have hlen1 : (Game.update cfg g).snake1.body.length =
        (g.snake1.move
          (decide (f.ftype = FruitType.apple ∨ f.ftype = FruitType.grapes))).body.length := by
      rw [hub1, hA.1, hE1]
    have hlen2 : (Game.update cfg g).snake2.body.length =
        (if f.ftype = FruitType.grapes then
          (if 1 < g.snake2.body.length then g.snake2.body.length - 1
           else g.snake2.body.length)
         else g.snake2.body.length) := by
      rw [hub2, hA.2.2, hs2len]
    refine ⟨?_, ?_, hfoods⟩
    · intro hap
      have hd : decide (f.ftype = FruitType.apple ∨ f.ftype = FruitType.grapes) = true := by
        simp [hap]
      rw [hlen1, hd]
      exact move_length_true _
    · intro hgr
      refine ⟨?_, ?_, ?_⟩
      · have hd : decide (f.ftype = FruitType.apple ∨ f.ftype = FruitType.grapes) = true := by
          simp [hgr]
        rw [hlen1, hd]
        exact move_length_true _
      · rw [hlen2, if_pos hgr]
      · rw [hlen2, if_pos hgr]
        have : 1 ≤ g.snake2.body.length := by
          cases hx : g.snake2.body with
          | nil => exact absurd hx hb2
          | cons a l => simp [hx]
        split <;> omega
  · intro f ha2 hf2 hf1
    have hE1 : (eatAndMove1 g).snake1.body.length = g.snake1.body.length ∧
        (eatAndMove1 g).snake2 = g.snake2 ∧ (eatAndMove1 g).foods = g.foods := by
      by_cases ha : g.snake1.alive = true
      · have hE1' : eatAndMove1 g = { g with snake1 := g.snake1.move false } := by
          simp only [eatAndMove1, ha, if_true, hf1]
        rw [hE1']
        exact ⟨move_length_false _, rfl, rfl⟩
      · have hE1' : eatAndMove1 g = g := by
          simp only [eatAndMove1]
          rw [if_neg ha]
        rw [hE1']
        exact ⟨rfl, rfl, rfl⟩
    have halive : (eatAndMove1 g).snake2.alive = true := by rw [hE1.2.1, ha2]
    have hlook : getFoodAt (eatAndMove1 g).foods (eatAndMove1 g).snake2.getNextHead = some f := by
      rw [hE1.2.2, hE1.2.1]
      exact hf2
    have hE2 : eatAndMove2 (eatAndMove1 g) =
        { eatAndMove1 g with
            snake2 := (eatAndMove1 g).snake2.move
              (decide (f.ftype = FruitType.apple ∨ f.ftype = FruitType.grapes))
            snake1 := if f.ftype = FruitType.grapes then (eatAndMove1 g).snake1.shrinkTail
              else (eatAndMove1 g).snake1
            foods := removeFoodAt (eatAndMove1 g).foods (eatAndMove1 g).snake2.getNextHead } := by
      simp only [eatAndMove2, halive, if_true, hlook]
    have hfoods : (Game.update cfg g).foods = removeFoodAt g.foods g.snake2.getNextHead := by
      rw [huf, hE2]
      dsimp only
      rw [hE1.2.2, hE1.2.1]
    have hlen2 : (Game.update cfg g).snake2.body.length =
        ((eatAndMove1 g).snake2.move
          (decide (f.ftype = FruitType.apple ∨ f.ftype = FruitType.grapes))).body.length := by
      rw [hub2, hE2]
    have hlen1 : (Game.update cfg g).snake1.body.length =
        (if f.ftype = FruitType.grapes then
          (if 1 < g.snake1.body.length then g.snake1.body.length - 1
           else g.snake1.body.length)
         else g.snake1.body.length) := by
      rw [hub1, hE2]
      dsimp only
      split
      · rw [shrinkTail_length, hE1.1]
      · rw [hE1.1]
    refine ⟨?_, ?_, hfoods⟩
    · intro hap
      have hd : decide (f.ftype = FruitType.apple ∨ f.ftype = FruitType.grapes) = true := by
        simp [hap]
      rw [hlen2, hd, move_length_true, hE1.2.1]
    · intro hgr
      refine ⟨?_, ?_, ?_⟩
      · have hd : decide (f.ftype = FruitType.apple ∨ f.ftype = FruitType.grapes) = true := by
          simp [hgr]
        rw [hlen2, hd, move_length_true, hE1.2.1]
      · rw [hlen1, if_pos hgr]
      · rw [hlen1, if_pos hgr]
        have : 1 ≤ g.snake1.body.length := by
          cases hx : g.snake1.body with
          | nil => exact absurd hx hb1
          | cons a l => simp [hx]
        split <;> omega

/-- 30×20 grid for the fruit scenarios. -/
def fruitCfg : Config := ⟨30, 20, 2, 5, [(FruitType.apple, ⟨1, 0⟩)], 5⟩

/-- Snake 1 about to eat an apple at (10,10) while snake 2 is about to
eat grapes at (19,10), both on the same tick. -/
def doubleFruitGame : Game :=
  { snake1 := ⟨1, [(9, 10)], Dir.right, Dir.right, [], true, false⟩
    snake2 := ⟨2, [(20, 10)], Dir.left, Dir.left, [], true, false⟩
    foods := [⟨10, 10, FruitType.apple, none⟩, ⟨19, 10, FruitType.grapes, none⟩]
    running := true
    winner := none
    ticksSinceLastFruit := 0 }

/-- C4 counterexample — the claim fails as universally stated: here
snake 1's next head holds an apple and snake 1 is alive, yet its body
does not grow by 1 this step, because snake 2 eats grapes on the same
tick and shrinks snake 1 back. -/
theorem fruitEffect_counterexample :
    getFoodAt doubleFruitGame.foods doubleFruitGame.snake1.getNextHead =
      some ⟨10, 10, FruitType.apple, none⟩ ∧
    doubleFruitGame.snake1.alive = true ∧
    doubleFruitGame.running = true ∧
    ¬ ((Game.update fruitCfg doubleFruitGame).snake1.body.length =
        doubleFruitGame.snake1.body.length + 1) := by decide

/-- Snake 1 (length 3) about to eat grapes at (10,10); snake 2 has
length 5 and no fruit ahead. -/
def grapesGame : Game :=
  { snake1 := ⟨1, [(9, 10), (8, 10), (7, 10)], Dir.right, Dir.right, [], true, false⟩
    snake2 := ⟨2, [(20, 5), (21, 5), (22, 5), (23, 5), (24, 5)], Dir.left, Dir.left, [], true, false⟩
    foods := [⟨10, 10, FruitType.grapes, none⟩]
    running := true
    winner := none
    ticksSinceLastFruit := 0 }

/-- Witness for the amended C4: snake 1 (length 3) eats grapes while
snake 2 (length 5) eats nothing — lengths become 4 and 4 and the
grapes are removed. -/
theorem fruitEffect_isolated_witness :
    (Game.update fruitCfg grapesGame).snake1.body.length = 4 ∧
    (Game.update fruitCfg grapesGame).snake2.body.length = 4 ∧
    (Game.update fruitCfg grapesGame).foods = [] := by
  have h := (fruitEffect_isolated fruitCfg grapesGame rfl (by decide) (by decide)).1
    ⟨10, 10, FruitType.grapes, none⟩ rfl (by decide) (by decide)
  obtain ⟨-, hgr, hfoods⟩ := h
  obtain ⟨hl1, hl2, -⟩ := hgr rfl
  refine ⟨?_, ?_, ?_⟩
  · rw [hl1]
    decide
  · rw [hl2]
    decide
  · rw [hfoods]
    decide

/-! ## C5: forfeit on disconnect -/

/-- C5 — If a player disconnects while the competition is `InProgress`,
the opponent is still connected and the match is not yet reported, then
the opponent's wins entry is set to `points_to_win`, `matchReported`
and `matchComplete` become true, a `match_complete` message with
`forfeit: true` naming the opponent is broadcast, and (the room being a
managed competition room with both uids set) the match is reported to
the competition with the opponent as winner. -/
theorem disconnect_forfeit (ptw : Nat) (r : RoomState) (pid : Nat)
    (hpid : pid = 1 ∨ pid = 2)
    (hopp : (3 - pid) ∈ r.connections)
    (hrep : r.matchReported = false)
    (u1 u2 : String) (hu1 : r.uid1 = some u1) (hu2 : r.uid2 = some u2)
    (hmgr : r.hasManager = true) :
    winsOf (disconnectPlayer true ptw r pid).room (3 - pid) = ptw ∧
    (disconnectPlayer true ptw r pid).room.matchReported = true ∧
    (disconnectPlayer true ptw r pid).room.matchComplete = true ∧
    (disconnectPlayer true ptw r pid).msg =
      some ⟨3 - pid, true, (disconnectPlayer true ptw r pid).room.wins1,
        (disconnectPlayer true ptw r pid).room.wins2⟩ ∧
    (disconnectPlayer true ptw r pid).report =
      some ⟨if pid = 1 then u2 else u1, u1, u2,
        (disconnectPlayer true ptw r pid).room.wins1,
        (disconnectPlayer true ptw r pid).room.wins2⟩ := by
  rcases hpid with hp | hp <;> subst hp <;>
    simp [disconnectPlayer, winsOf, setWins, uidOf, hopp, hrep, hu1, hu2, hmgr]

/-- A competition room with both players connected, mid-match. -/
def forfeitRoom : RoomState :=
  ⟨[1, 2], [1, 2], true, 2, 1, false, false, some "P1", some "P2", true⟩

/-- Witness for C5: player 2 disconnects mid-competition; player 1 is
awarded the match by forfeit. -/
theorem disconnect_forfeit_witness :
    winsOf (disconnectPlayer true 5 forfeitRoom 2).room 1 = 5 ∧
    (disconnectPlayer true 5 forfeitRoom 2).room.matchReported = true ∧
    (disconnectPlayer true 5 forfeitRoom 2).room.matchComplete = true ∧
    (disconnectPlayer true 5 forfeitRoom 2).msg =
      some ⟨1, true, (disconnectPlayer true 5 forfeitRoom 2).room.wins1,
        (disconnectPlayer true 5 forfeitRoom 2).room.wins2⟩ ∧
    (disconnectPlayer true 5 forfeitRoom 2).report =
      some ⟨"P1", "P1", "P2", (disconnectPlayer true 5 forfeitRoom 2).room.wins1,
        (disconnectPlayer true 5 forfeitRoom 2).room.wins2⟩ :=
  disconnect_forfeit 5 forfeitRoom 2 (Or.inr rfl) (by decide) rfl "P1" "P2" rfl rfl rfl

/-! ## C7: the fruit spawn conditions -/

theorem weightedPick_mem (l : List (FruitType × Nat)) (r : Nat)
    (h : r < (l.map (fun p => p.2)).sum) :
    ∃ p ∈ l, weightedPick l r = some p.1 := by
  induction l generalizing r with
  | nil => simp at h
  | cons a t ih =>
    by_cases hr : r < a.2
    · exact ⟨a, List.mem_cons_self _ _, by simp [weightedPick, hr]⟩
    · have h' : r - a.2 < (t.map (fun p => p.2)).sum := by
        simp only [List.map_cons, List.sum_cons] at h
        omega
      obtain ⟨p, hp, hw⟩ := ih _ h'
      exact ⟨p, List.mem_cons_of_mem _ hp, by simp [weightedPick, hr, hw]⟩

theorem chooseFruitType_eq_none (cfg : Config) (r : Nat)
    (h : ∀ p ∈ cfg.fruits, ¬(0 < p.2.propensity)) :
    chooseFruitType cfg r = none := by
  unfold chooseFruitType positiveFruits
  have he : cfg.fruits.filter (fun p => decide (0 < p.2.propensity)) = [] := by
    rw [List.filter_eq_nil_iff]
    intro p hp
    simp [h p hp]
  simp [he]

theorem chooseFruitType_isSome (cfg : Config) (r : Nat)
    (h : ∃ p ∈ cfg.fruits, 0 < p.2.propensity) :
    ∃ t, chooseFruitType cfg r = some t ∧
      ∃ props : FruitProps, (t, props) ∈ cfg.fruits ∧ 0 < props.propensity := by
  obtain ⟨p, hp, hprop⟩ := h
  have hmem : (p.1, p.2.propensity) ∈ positiveFruits cfg := by
    unfold positiveFruits
    exact List.mem_map_of_mem _ (List.mem_filter.mpr ⟨hp, by simp [hprop]⟩)
  have htotal : 0 < ((positiveFruits cfg).map (fun q => q.2)).sum := by
    have hm : p.2.propensity ∈ (positiveFruits cfg).map (fun q => q.2) := by
      have := List.mem_map_of_mem (fun q : FruitType × Nat => q.2) hmem
      exact this
    have hle := List.single_le_sum (fun x _ => Nat.zero_le x) _ hm
    omega
  have hlt : r % ((positiveFruits cfg).map (fun q => q.2)).sum <
      ((positiveFruits cfg).map (fun q => q.2)).sum := Nat.mod_lt _ htotal
  obtain ⟨q, hq, hw⟩ := weightedPick_mem _ _ hlt
  refine ⟨q.1, ?_, ?_⟩
  · unfold chooseFruitType
    rw [if_neg (by omega)]
    exact hw
  · unfold positiveFruits at hq
    obtain ⟨p', hp', he⟩ := List.mem_map.mp hq
    obtain ⟨hpmem, hppos⟩ := List.mem_filter.mp hp'
    refine ⟨p'.2, ?_, by simpa using hppos⟩
    have h1 : q.1 = p'.1 := by rw [← he]
    rw [h1]
    exact hpmem

theorem availableCells_spec (cfg : Config) (g : Game) :
    ∀ c ∈ availableCells cfg g, c ∉ occupiedCells g ∧
      0 ≤ c.1 ∧ c.1 < (cfg.gridWidth : Int) ∧ 0 ≤ c.2 ∧ c.2 < (cfg.gridHeight : Int) := by
  intro c hc
  unfold availableCells at hc
  rw [List.mem_filter] at hc
  obtain ⟨hmem, hocc⟩ := hc
  refine ⟨by simpa using hocc, ?_⟩
  obtain ⟨x, hx, hcm⟩ := List.mem_flatMap.mp hmem
  obtain ⟨y, hy, rfl⟩ := List.mem_map.mp hcm
  rw [List.mem_range] at hx hy
  refine ⟨?_, ?_, ?_, ?_⟩
  · show (0 : Int) ≤ (x : Int)
    positivity
  · show (x : Int) < (cfg.gridWidth : Int)
    exact_mod_cast hx
  · show (0 : Int) ≤ (y : Int)
    positivity
  · show (y : Int) < (cfg.gridHeight : Int)
    exact_mod_cast hy

theorem getD_mod_mem {α : Type} (l : List α) (c : Nat) (d : α) (h : l ≠ []) :
    l.getD (c % l.length) d ∈ l := by
  have hlen : 0 < l.length := List.length_pos.mpr h
  have hlt : c % l.length < l.length := Nat.mod_lt _ hlen
  rw [List.getD_eq_getElem?_getD, List.getElem?_eq_getElem hlt]
  exact List.getElem_mem _

/-- The spawn conditions of `spawn_food_if_needed`: under `max_fruits`,
interval elapsed, some positive-propensity type, and a free cell. -/
def spawnConds (cfg : Config) (g : Game) : Prop :=
  g.foods.length < cfg.maxFruits ∧ cfg.fruitInterval ≤ g.ticksSinceLastFruit ∧
  (∃ p ∈ cfg.fruits, 0 < p.2.propensity) ∧ availableCells cfg g ≠ []

instance (cfg : Config) (g : Game) : Decidable (spawnConds cfg g) := by
  unfold spawnConds
  infer_instance

/-- C7 — `spawn_food_if_needed` spawns exactly when `|foods| <
max_fruits`, `ticks_since_last_fruit ≥ fruit_interval`, some type has
positive propensity, and an unoccupied cell exists; the spawned food
sits on an unoccupied in-grid cell, has a positive-propensity type and
the configured lifetime (0 mapped to infinite), and the tick counter
resets to 0; otherwise the state is unchanged.  The weighted type draw
and uniform cell draw are the oracles `r` and `c`. -/
theorem spawnFood_spec (cfg : Config) (r c : Nat) (g : Game) :
    (spawnConds cfg g →
      ∃ fd : Food,
        (spawnFoodIfNeeded cfg r c g).foods = g.foods ++ [fd] ∧
        (fd.x, fd.y) ∉ occupiedCells g ∧
        0 ≤ fd.x ∧ fd.x < (cfg.gridWidth : Int) ∧
        0 ≤ fd.y ∧ fd.y < (cfg.gridHeight : Int) ∧
        (∃ props : FruitProps, (fd.ftype, props) ∈ cfg.fruits ∧ 0 < props.propensity) ∧
        fd.lifetime = (if 0 < fruitLifetime cfg fd.ftype
          then some ((fruitLifetime cfg fd.ftype : Int)) else none) ∧
        (spawnFoodIfNeeded cfg r c g).ticksSinceLastFruit = 0) ∧
    (¬ spawnConds cfg g → spawnFoodIfNeeded cfg r c g = g) := by
  constructor
  · rintro ⟨h1, h2, h3, h4⟩
    obtain ⟨t, hct, props, hpmem, hppos⟩ := chooseFruitType_isSome cfg r h3
    unfold spawnFoodIfNeeded
    rw [if_neg (by omega), if_neg (by omega), hct]
    dsimp only
    rw [if_neg (by simp [List.isEmpty_iff, h4])]
    have hpos := getD_mod_mem (availableCells cfg g) c ((0 : Int), (0 : Int)) h4
    obtain ⟨hocc, hx0, hxw, hy0, hyh⟩ := availableCells_spec cfg g _ hpos
    refine ⟨⟨_, _, t, _⟩, rfl, ?_, hx0, hxw, hy0, hyh, ⟨props, hpmem, hppos⟩, rfl, rfl⟩
    simpa using hocc
  · intro hn
    unfold spawnFoodIfNeeded
    by_cases h1 : cfg.maxFruits ≤ g.foods.length
    · rw [if_pos h1]
    · rw [if_neg h1]
      by_cases h2 : g.ticksSinceLastFruit < cfg.fruitInterval
      · rw [if_pos h2]
      · rw [if_neg h2]
        by_cases h3 : ∃ p ∈ cfg.fruits, 0 < p.2.propensity
        · obtain ⟨t, hct, -⟩ := chooseFruitType_isSome cfg r h3
          rw [hct]
          dsimp only
          have h4 : availableCells cfg g = [] := by
            by_contra h4
            exact hn ⟨by omega, by omega, h3, h4⟩
          rw [if_pos (by simp [List.isEmpty_iff, h4])]
        · push_neg at h3
          rw [chooseFruitType_eq_none cfg r (fun p hp => by have := h3 p hp; omega)]

/-- A 3×3 grid with apples (weight 2, infinite lifetime) and grapes
(weight 3, lifetime 4 ticks). -/
def spawnCfg : Config :=
  ⟨3, 3, 1, 1, [(FruitType.apple, ⟨2, 0⟩), (FruitType.grapes, ⟨3, 4⟩)], 1⟩

/-- Two length-1 snakes on an otherwise empty 3×3 grid, spawn interval
elapsed. -/
def spawnGame : Game :=
  { snake1 := ⟨1, [(0, 0)], Dir.right, Dir.right, [], true, false⟩
    snake2 := ⟨2, [(2, 2)], Dir.left, Dir.left, [], true, false⟩
    foods := []
    running := true
    winner := none
    ticksSinceLastFruit := 7 }

/-- Witness for C7: the spawn conditions hold concretely and a food is
spawned. -/
theorem spawnFood_spec_witness :
    spawnConds spawnCfg spawnGame ∧
    ∃ fd : Food,
      (spawnFoodIfNeeded spawnCfg 2 0 spawnGame).foods = spawnGame.foods ++ [fd] ∧
      (fd.x, fd.y) ∉ occupiedCells spawnGame ∧
      0 ≤ fd.x ∧ fd.x < (spawnCfg.gridWidth : Int) ∧
      0 ≤ fd.y ∧ fd.y < (spawnCfg.gridHeight : Int) ∧
      (∃ props : FruitProps, (fd.ftype, props) ∈ spawnCfg.fruits ∧ 0 < props.propensity) ∧
      fd.lifetime = (if 0 < fruitLifetime spawnCfg fd.ftype
        then some ((fruitLifetime spawnCfg fd.ftype : Int)) else none) ∧
      (spawnFoodIfNeeded spawnCfg 2 0 spawnGame).ticksSinceLastFruit = 0 :=
  ⟨by decide, (spawnFood_spec spawnCfg 2 0 spawnGame).1 (by decide)⟩

/-! ## C6: Bye selection on round advance -/

theorem byeKeyLe_trans (gp ft rnd : String → Nat) (a b c : String)
    (h1 : byeKeyLe gp ft rnd a b = true) (h2 : byeKeyLe gp ft rnd b c = true) :
    byeKeyLe gp ft rnd a c = true := by
  unfold byeKeyLe at *
  split_ifs at h1 h2 ⊢ <;> simp_all <;> omega

theorem byeKeyLe_total (gp ft rnd : String → Nat) (a b : String) :
    byeKeyLe gp ft rnd a b = true ∨ byeKeyLe gp ft rnd b a = true := by
  unfold byeKeyLe
  split_ifs <;> simp_all <;> omega

theorem byeKeyLe_refl (gp ft rnd : String → Nat) (a : String) :
    byeKeyLe gp ft rnd a a = true := by
  simp [byeKeyLe]

theorem byeKeyLe_gp (gp ft rnd : String → Nat) (a b : String)
    (h : byeKeyLe gp ft rnd a b = true) : gp b ≤ gp a := by
  unfold byeKeyLe at h
  split_ifs at h <;> simp_all <;> omega

theorem byeKeyLe_ft (gp ft rnd : String → Nat) (a b : String)
    (h : byeKeyLe gp ft rnd a b = true) (hgp : gp b = gp a) : ft a ≤ ft b := by
  unfold byeKeyLe at h
  split_ifs at h <;> simp_all <;> omega

theorem pairAdjacent_mem :
    ∀ (l : List String) (pr : String × String), pr ∈ pairAdjacent l → pr.1 ∈ l ∧ pr.2 ∈ l
  | [], pr, h => by simp [pairAdjacent] at h
  | [a], pr, h => by simp [pairAdjacent] at h
  | a :: b :: rest, pr, h => by
    simp only [pairAdjacent, List.mem_cons] at h
    rcases h with h | h
    · subst h
      exact ⟨List.mem_cons_self _ _, List.mem_cons_of_mem _ (List.mem_cons_self _ _)⟩
    · obtain ⟨h1, h2⟩ := pairAdjacent_mem rest pr h
      exact ⟨List.mem_cons_of_mem _ (List.mem_cons_of_mem _ h1),
        List.mem_cons_of_mem _ (List.mem_cons_of_mem _ h2)⟩

/-- C6 — On a round advance with an odd number (> 1) of distinct
winners, the Bye player is minimal under the sort key
`(−gamePoints, lastMatchFinishTime, random tiebreak)` — in particular
has maximal game points, ties broken by earliest finish time — is
excluded from the shuffled pairings, a synthetic self-pairing
`MatchResult` with points 0/0 is the new round's seeded result list,
and the Bye player's `lastMatchFinishTime` becomes `now`. -/
theorem advanceRound_bye (gp ft rnd : String → Nat) (shuffle : List String → List String)
    (hshuf : ∀ l, (shuffle l).Perm l) (now : Nat) (winners : List String)
    (hnd : winners.Nodup) (hodd : winners.length % 2 = 1) (hgt : 1 < winners.length) :
    ∃ b : String,
      (advanceRound gp ft rnd shuffle now winners).byeUid = some b ∧
      b ∈ winners ∧
      (∀ u ∈ winners, byeKeyLe gp ft rnd b u = true) ∧
      (∀ u ∈ winners, gp u ≤ gp b) ∧
      (∀ u ∈ winners, gp u = gp b → ft b ≤ ft u) ∧
      (∀ pr ∈ (advanceRound gp ft rnd shuffle now winners).pairings, pr.1 ≠ b ∧ pr.2 ≠ b) ∧
      (advanceRound gp ft rnd shuffle now winners).newResults = [⟨b, b, b, 0, 0⟩] ∧
      (advanceRound gp ft rnd shuffle now winners).finishTime b = now := by
  have hne1 : ¬(winners.length = 1) := by omega
  have hperm := List.mergeSort_perm winners (byeKeyLe gp ft rnd)
  have hlen : (winners.mergeSort (byeKeyLe gp ft rnd)).length = winners.length :=
    hperm.length_eq
  obtain ⟨bh, rest, hsort⟩ :
      ∃ bh rest, winners.mergeSort (byeKeyLe gp ft rnd) = bh :: rest := by
    cases hs : winners.mergeSort (byeKeyLe gp ft rnd) with
    | nil =>
      rw [hs] at hlen
      simp at hlen
      omega
    | cons bh rest => exact ⟨bh, rest, rfl⟩
  have hhead : (winners.mergeSort (byeKeyLe gp ft rnd)).headD "" = bh := by
    rw [hsort]
    rfl
  have hval : advanceRound gp ft rnd shuffle now winners =
      { champion := none, byeUid := some bh,
        pairings := pairAdjacent (shuffle (winners.erase bh)),
        newResults := [⟨bh, bh, bh, 0, 0⟩],
        finishTime := fun u => if u = bh then now else ft u } := by
    unfold advanceRound
    rw [if_neg hne1]
    dsimp only
    rw [if_pos hodd, hhead]
  have hpw := List.sorted_mergeSort
    (byeKeyLe_trans gp ft rnd)
    (fun a b => by rcases byeKeyLe_total gp ft rnd a b with h | h <;> simp [h]) winners
  rw [hsort] at hpw
  have hball := (List.pairwise_cons.mp hpw).1
  have hmemb : bh ∈ winners := by
    have : bh ∈ winners.mergeSort (byeKeyLe gp ft rnd) := by
      rw [hsort]
      exact List.mem_cons_self _ _
    exact hperm.mem_iff.mp this
  have hmin : ∀ u ∈ winners, byeKeyLe gp ft rnd bh u = true := by
    intro u hu
    have : u ∈ bh :: rest := by
      rw [← hsort]
      exact hperm.mem_iff.mpr hu
    rcases List.mem_cons.mp this with h | h
    · rw [h]
      exact byeKeyLe_refl gp ft rnd bh
    · exact hball u h
  have hnotpaired : bh ∉ shuffle (winners.erase bh) := by
    intro hmem
    exact (hnd.not_mem_erase) ((hshuf _).mem_iff.mp hmem)
  refine ⟨bh, ?_, hmemb, hmin, ?_, ?_, ?_, ?_, ?_⟩
  · rw [hval]
  · intro u hu
    exact byeKeyLe_gp gp ft rnd bh u (hmin u hu)
  · intro u hu hgpe
    exact byeKeyLe_ft gp ft rnd bh u (hmin u hu) hgpe
  · intro pr hpr
    rw [hval] at hpr
    obtain ⟨h1, h2⟩ := pairAdjacent_mem _ pr hpr
    constructor
    · intro he
      rw [he] at h1
      exact hnotpaired h1
    · intro he
      rw [he] at h2
      exact hnotpaired h2
  · rw [hval]
  · rw [hval]
    simp

/-- Game points of the concrete three-winner round: P2 leads. -/
def byeGp : String → Nat := fun u => if u = "P2" then 7 else 3

/-- Finish times of the concrete three-winner round. -/
def byeFt : String → Nat := fun _ => 0

/-- Random tiebreak draws of the concrete three-winner round. -/
def byeRnd : String → Nat := fun _ => 0

/-- Witness for C6 at a concrete odd round of three distinct winners. -/
theorem advanceRound_bye_witness :
    ∃ b : String,
      (advanceRound byeGp byeFt byeRnd id 42 ["P1", "P2", "P3"]).byeUid = some b ∧
      b ∈ ["P1", "P2", "P3"] ∧
      (∀ u ∈ ["P1", "P2", "P3"], byeKeyLe byeGp byeFt byeRnd b u = true) ∧
      (∀ u ∈ ["P1", "P2", "P3"], byeGp u ≤ byeGp b) ∧
      (∀ u ∈ ["P1", "P2", "P3"], byeGp u = byeGp b → byeFt b ≤ byeFt u) ∧
      (∀ pr ∈ (advanceRound byeGp byeFt byeRnd id 42 ["P1", "P2", "P3"]).pairings,
        pr.1 ≠ b ∧ pr.2 ≠ b) ∧
      (advanceRound byeGp byeFt byeRnd id 42 ["P1", "P2", "P3"]).newResults = [⟨b, b, b, 0, 0⟩] ∧
      (advanceRound byeGp byeFt byeRnd id 42 ["P1", "P2", "P3"]).finishTime b = 42 :=
  advanceRound_bye byeGp byeFt byeRnd id (fun l => List.Perm.refl l) 42 ["P1", "P2", "P3"]
    (by decide) (by decide) (by decide)

/-! ## C9: matchmaking -/

theorem find?_range'_first (p : Nat → Bool) :
    ∀ (n s j : Nat), (List.range' s n).find? p = some j →
      p j = true ∧ s ≤ j ∧ j < s + n ∧ ∀ i, s ≤ i → i < j → p i = false := by
  intro n
  induction n with
  | zero => intro s j h; simp [List.range'] at h
  | succ n ih =>
    intro s j h
    rw [List.range'_succ] at h
    by_cases hp : p s = true
    · rw [List.find?_cons_of_pos _ hp] at h
      obtain rfl : s = j := by exact Option.some.inj h
      exact ⟨hp, le_refl _, by omega, fun i h1 h2 => by omega⟩
    · have hp' : p s = false := by
        cases hps : p s
        · rfl
        · exact absurd hps hp
      rw [List.find?_cons_of_neg _ (by simp [hp'])] at h
      obtain ⟨hpj, hle, hlt, hall⟩ := ih (s + 1) j h
      refine ⟨hpj, by omega, by omega, ?_⟩
      intro i h1 h2
      rcases Nat.eq_or_lt_of_le h1 with he | hlt'
      · rw [← he]
        exact hp'
      · exact hall i hlt' h2

theorem find?_map_replace (rooms : List (Nat × RoomM)) (k : Nat) (v : RoomM)
    (h : rooms.any (fun p => decide (p.1 = k)) = true) :
    (rooms.map (fun p => if p.1 = k then (k, v) else p)).find?
      (fun p => decide (p.1 = k)) = some (k, v) := by
  induction rooms with
  | nil => simp at h
  | cons p t ih =>
    rw [List.map_cons]
    by_cases hk : p.1 = k
    · rw [if_pos hk]
      rw [List.find?_cons_of_pos _ (by simp)]
    · rw [if_neg hk]
      rw [List.find?_cons_of_neg _ (by simp [hk])]
      apply ih
      rw [List.any_cons] at h
      simp only [hk, decide_eq_true_eq, Bool.false_or] at h
      simpa using h

theorem dictLookup_dictInsert_self (rooms : List (Nat × RoomM)) (k : Nat) (v : RoomM) :
    dictLookup (dictInsert rooms k v) k = some v := by
  unfold dictInsert
  by_cases hany : rooms.any (fun p => decide (p.1 = k)) = true
  · rw [if_pos hany]
    unfold dictLookup
    rw [find?_map_replace rooms k v hany]
    rfl
  · rw [if_neg hany]
    unfold dictLookup
    rw [List.find?_append]
    have hnone : rooms.find? (fun p => decide (p.1 = k)) = none := by
      rw [List.find?_eq_none]
      intro x hx
      intro hcon
      apply hany
      rw [List.any_eq_true]
      exact ⟨x, hx, hcon⟩
    rw [hnone]
    rw [List.find?_cons_of_pos _ (by simp)]
    rfl

/-- C9 amended — `find_or_create_room` returns the *first* room in
dict insertion order that `is_waiting_for_player()` (together with its
free slot), which is the lowest-id waiting room only when the
registry's insertion order is id-ascending; with no waiting room it
creates a new room at the lowest free id in `1..MAX_ROOMS` (free:
absent or empty) with slot 1; with no waiting room and no free id it
returns nothing. -/
theorem findOrCreateRoom_spec (rooms : List (Nat × RoomM)) :
    (∀ (l1 : List (Nat × RoomM)) (rid : Nat) (rm : RoomM) (l2 : List (Nat × RoomM)),
      rooms = l1 ++ (rid, rm) :: l2 → rm.isWaitingForPlayer = true →
      (∀ p ∈ l1, p.2.isWaitingForPlayer = false) →
      (findOrCreateRoom rooms).1 = some (rid, rm.availableSlot) ∧
      (findOrCreateRoom rooms).2 = rooms) ∧
    ((∀ p ∈ rooms, p.2.isWaitingForPlayer = false) →
      ∀ rid : Nat, 1 ≤ rid → rid ≤ MAX_ROOMS → isFreeId rooms rid = true →
      ∃ j : Nat, (findOrCreateRoom rooms).1 = some (j, 1) ∧
        1 ≤ j ∧ j ≤ MAX_ROOMS ∧ isFreeId rooms j = true ∧ j ≤ rid ∧
        (∀ i : Nat, 1 ≤ i → i < j → isFreeId rooms i = false) ∧
        dictLookup (findOrCreateRoom rooms).2 j = some newRoom) ∧
    ((∀ p ∈ rooms, p.2.isWaitingForPlayer = false) →
      (∀ i : Nat, 1 ≤ i → i ≤ MAX_ROOMS → isFreeId rooms i = false) →
      (findOrCreateRoom rooms).1 = none) := by
  refine ⟨?_, ?_, ?_⟩
  · intro l1 rid rm l2 he hw hl1
    have hf : rooms.find? (fun p => p.2.isWaitingForPlayer) = some (rid, rm) := by
      rw [he, List.find?_append]
      have h1 : l1.find? (fun p => p.2.isWaitingForPlayer) = none := by
        rw [List.find?_eq_none]
        intro x hx
        simp [hl1 x hx]
      rw [h1]
      simp [List.find?_cons, hw]
    unfold findOrCreateRoom
    rw [hf]
    exact ⟨rfl, rfl⟩
  · intro hnw rid h1 h2 hfree
    have hf : rooms.find? (fun p => p.2.isWaitingForPlayer) = none := by
      rw [List.find?_eq_none]
      intro p hp
      simp [hnw p hp]
    cases hr : (List.range' 1 MAX_ROOMS).find? (isFreeId rooms) with
    | none =>
      exfalso
      rw [List.find?_eq_none] at hr
      exact absurd hfree (by simpa using hr rid (List.mem_range'_1.mpr ⟨h1, by omega⟩))
    | some j =>
      obtain ⟨hpj, hj1, hj2, hmin⟩ := find?_range'_first (isFreeId rooms) MAX_ROOMS 1 j hr
      have hjr : j ≤ rid := by
        by_contra hcon
        have := hmin rid h1 (by omega)
        rw [hfree] at this
        cases this
      refine ⟨j, ?_, hj1, by omega, hpj, hjr, hmin, ?_⟩
      · unfold findOrCreateRoom
        rw [hf, hr]
      · unfold findOrCreateRoom
        rw [hf, hr]
        exact dictLookup_dictInsert_self rooms j newRoom
  · intro hnw hnof
    have hf : rooms.find? (fun p => p.2.isWaitingForPlayer) = none := by
      rw [List.find?_eq_none]
      intro p hp
      simp [hnw p hp]
    have hr : (List.range' 1 MAX_ROOMS).find? (isFreeId rooms) = none := by
      rw [List.find?_eq_none]
      intro i hi
      obtain ⟨hi1, hi2⟩ := List.mem_range'_1.mp hi
      simp [hnof i hi1 (by omega)]
    unfold findOrCreateRoom
    rw [hf, hr]

/-- A registry whose insertion order disagrees with id order: room 2
was created first, room 1 re-created later (reachable after
`cleanup_empty_rooms` removed an emptied room 1 while room 2 was
occupied). Both rooms are waiting. -/
def unorderedRegistry : List (Nat × RoomM) :=
  [(2, ⟨true, false, false⟩), (1, ⟨true, false, false⟩)]

/-- C9 counterexample — with room 1 present and waiting,
`find_or_create_room` nevertheless returns room 2 (the first in dict
insertion order), so it does not return the lowest-id waiting room. -/
theorem findOrCreateRoom_counterexample :
    (1, (⟨true, false, false⟩ : RoomM)) ∈ unorderedRegistry ∧
    (⟨true, false, false⟩ : RoomM).isWaitingForPlayer = true ∧
    (findOrCreateRoom unorderedRegistry).1 = some (2, 2) := by decide

/-- Room with both slots connected and the game running. -/
def fullRoom : RoomM := ⟨true, true, true⟩

/-- Room with one connection, game not running. -/
def waitRoom : RoomM := ⟨true, false, false⟩

/-- An id-ordered registry: room 1 full, room 2 waiting. -/
def orderedRegistry : List (Nat × RoomM) := [(1, fullRoom), (2, waitRoom)]

/-- Witness for the amended C9: the second player is routed into
waiting room 2, slot 2, registry unchanged. -/
theorem findOrCreateRoom_spec_witness :
    (findOrCreateRoom orderedRegistry).1 = some (2, waitRoom.availableSlot) ∧
    (findOrCreateRoom orderedRegistry).2 = orderedRegistry :=
  (findOrCreateRoom_spec orderedRegistry).1 [(1, fullRoom)] 2 waitRoom [] rfl
    (by decide) (by decide)

end Copperhead
